import Mathlib

/-!
Shallow embedding of src/src-tauri/src/lib.rs: the application bootstrap
function run(), which assembles a tauri builder with a fixed set of plugins
(a fourth plugin is added under a compile-time platform cfg) and then hands
control to the runtime via a blocking run invocation whose error is turned
into a panic by expect.

The external runtime and the generated context are opaque collaborators:
the runtime run call is a parameter of the embedded run, so that theorems
quantify over every possible runtime behaviour.  The compile-time target
platform (the cfg predicates) is made an explicit parameter `os`.
Each bootstrap step is recorded in an event trace so that ordering claims
can be stated.
-/

/-- Compile-time target platform, the value of target_os the crate is
compiled for.  The cfg predicates of the source distinguish only android and
ios from everything else; the three common desktop targets are listed. -/
inductive TargetOS where
  | android
  | ios
  | linux
  | macos
  | windows
  deriving DecidableEq, Repr

/-- Embedding of the cfg predicate any(target_os = "android", target_os = "ios"),
which is also what the tauri `mobile` cfg alias expands to (line 3 of lib.rs). -/
def mobile (os : TargetOS) : Bool :=
  os = TargetOS.android ∨ os = TargetOS.ios

/-- Embedding of the cfg predicate of line 12 of lib.rs:
not(any(target_os = "android", target_os = "ios")). -/
def cfg_not_android_ios (os : TargetOS) : Bool :=
  !(os = TargetOS.android ∨ os = TargetOS.ios : Bool)

namespace tauri_plugin_global_shortcut

/-- Configuration builder of the external global-shortcut plugin
(tauri_plugin_global_shortcut::Builder).  The crate is an opaque
collaborator; its builder is modelled by its configuration state: the
shortcuts pre-registered at startup and whether a shortcut handler was
installed. -/
structure Builder where
  shortcuts : List String
  hasHandler : Bool
  deriving DecidableEq, Repr

/-- Builder::new() of the external crate: the default, empty configuration. -/
def Builder.new : Builder := { shortcuts := [], hasHandler := false }

/-- Builder::with_shortcuts of the external crate: pre-register shortcuts. -/
def Builder.with_shortcuts (b : Builder) (ss : List String) : Builder :=
  { b with shortcuts := b.shortcuts ++ ss }

/-- Builder::with_handler of the external crate: install a global handler. -/
def Builder.with_handler (b : Builder) : Builder :=
  { b with hasHandler := true }

end tauri_plugin_global_shortcut

/-- A plugin value as handed to tauri::Builder::plugin.  The global-shortcut
plugin carries the configuration its builder was built with; the other three
plugins of lib.rs take no configuration. -/
inductive Plugin where
  | clipboard
  | opener
  | fs
  | globalShortcut (cfg : tauri_plugin_global_shortcut.Builder)
  deriving DecidableEq, Repr

namespace tauri_plugin_clipboard

/-- tauri_plugin_clipboard::init() (line 6 of lib.rs). -/
def init : Plugin := Plugin.clipboard

end tauri_plugin_clipboard

namespace tauri_plugin_opener

/-- tauri_plugin_opener::init() (line 7 of lib.rs). -/
def init : Plugin := Plugin.opener

end tauri_plugin_opener

namespace tauri_plugin_fs

/-- tauri_plugin_fs::init() (line 8 of lib.rs). -/
def init : Plugin := Plugin.fs

end tauri_plugin_fs

/-- tauri_plugin_global_shortcut::Builder::build (line 14 of lib.rs): the
built plugin carries the configuration accumulated in the builder. -/
def tauri_plugin_global_shortcut.Builder.build
    (b : tauri_plugin_global_shortcut.Builder) : Plugin :=
  Plugin.globalShortcut b

/-- Observable step performed by the bootstrap: a plugin registration on the
builder, or the invocation of the runtime run call. -/
inductive Event where
  | registered (p : Plugin)
  | runInvoked
  deriving DecidableEq, Repr

namespace tauri

/-- tauri::Builder.  Its state is the ordered trace of bootstrap events that
produced it (each .plugin call appends one registration event). -/
structure Builder where
  events : List Event
  deriving DecidableEq, Repr

/-- tauri::Builder::default(): no plugin registered yet. -/
def Builder.default : Builder := { events := [] }

/-- tauri::Builder::plugin: register one plugin, after everything already
registered. -/
def Builder.plugin (b : Builder) (p : Plugin) : Builder :=
  { events := b.events ++ [Event.registered p] }

/-- The ordered list of plugins registered on the builder, read off its
event trace. -/
def Builder.plugins (b : Builder) : List Plugin :=
  b.events.filterMap fun e =>
    match e with
    | Event.registered p => some p
    | Event.runInvoked => none

/-- The generated application context (tauri::generate_context!()), produced
by an external code-generation step and consumed opaquely. -/
structure Context where
  deriving DecidableEq, Repr

/-- tauri::generate_context!() of line 18 of lib.rs. -/
def generate_context : Context := {}

end tauri

/-- Result of the runtime run call, Result of unit and tauri::Error; the
error is abstracted to its rendering. -/
inductive RuntimeResult where
  | ok
  | err (e : String)
  deriving DecidableEq, Repr

/-- Observable outcome of the bootstrap: run() returned unit to its caller,
or the process was terminated by a panic carrying the given message. -/
inductive Outcome where
  | normalExit
  | panic (msg : String)
  deriving DecidableEq, Repr

/-- Result::expect (line 19 of lib.rs): return unit on Ok, panic with the
descriptive message on Err. -/
def RuntimeResult.expect : RuntimeResult → String → Outcome
  | RuntimeResult.ok, _ => Outcome.normalExit
  | RuntimeResult.err _, msg => Outcome.panic msg

/-- The behaviour of the opaque runtime run routine
(tauri::Builder::run): it sees the registered plugins and the generated
context and ends with a RuntimeResult. -/
def RuntimeBehaviour : Type := List Plugin → tauri.Context → RuntimeResult

/-- tauri::Builder::run (line 18 of lib.rs): the single blocking run
invocation, recorded in the trace after every registration; the runtime
behaviour decides the result. -/
def tauri.Builder.run (b : tauri.Builder) (ctx : tauri.Context)
    (runtime : RuntimeBehaviour) : List Event × RuntimeResult :=
  (b.events ++ [Event.runInvoked], runtime b.plugins ctx)

/-- Lines 5 to 15 of lib.rs: the builder assembled by run() before the run
invocation — the three unconditional .plugin calls, then, under
cfg(not(any(target_os = "android", target_os = "ios"))), the rebinding that
adds the global-shortcut plugin built from a fresh Builder::new(). -/
def bootstrapBuilder (os : TargetOS) : tauri.Builder :=
  let builder :=
    ((tauri.Builder.default.plugin tauri_plugin_clipboard.init).plugin
        tauri_plugin_opener.init).plugin tauri_plugin_fs.init
  let builder :=
    if cfg_not_android_ios os then
      builder.plugin tauri_plugin_global_shortcut.Builder.new.build
    else builder
  builder

/-- pub fn run() (lines 4 to 20 of lib.rs), parameterised by the
compile-time target and the opaque runtime behaviour: assemble the builder,
invoke the blocking run call on it with the generated context, and apply
expect to its result.  Returns the event trace and the outcome. -/
def run (os : TargetOS) (runtime : RuntimeBehaviour) : List Event × Outcome :=
  let r := (bootstrapBuilder os).run tauri.generate_context runtime
  (r.1, r.2.expect "error while running tauri application")

/-- The plugins registered during a bootstrap trace, in registration order. -/
def registeredPlugins (events : List Event) : List Plugin :=
  events.filterMap fun e =>
    match e with
    | Event.registered p => some p
    | Event.runInvoked => none

/-- Line 3 of lib.rs, cfg_attr(mobile, tauri::mobile_entry_point): on a
mobile target the runtime mobile entry hook is bound to run itself; on any
other target no mobile entry point is declared. -/
def mobile_entry_point (os : TargetOS) :
    Option (RuntimeBehaviour → List Event × Outcome) :=
  if mobile os then some (run os) else none

/-! Helper lemmas shared by the claim theorems. -/

/-- The event trace of run() is independent of the runtime behaviour and
fully determined by the target platform. -/
theorem run_trace_eq (os : TargetOS) (runtime : RuntimeBehaviour) :
    (run os runtime).1 = (bootstrapBuilder os).events ++ [Event.runInvoked] := by
  rfl

/-- The plugins registered by run() are those of the assembled builder. -/
theorem run_registered (os : TargetOS) (runtime : RuntimeBehaviour) :
    registeredPlugins (run os runtime).1 = (bootstrapBuilder os).plugins := by
  cases os <;> rfl

/-- The plugin list assembled by the bootstrap, by target platform. -/
theorem bootstrap_plugins_eq (os : TargetOS) :
    (bootstrapBuilder os).plugins =
      if os = TargetOS.android ∨ os = TargetOS.ios then
        [Plugin.clipboard, Plugin.opener, Plugin.fs]
      else
        [Plugin.clipboard, Plugin.opener, Plugin.fs,
          Plugin.globalShortcut tauri_plugin_global_shortcut.Builder.new] := by
  cases os <;> rfl

/-- Claim C1: for every target platform, the plugin set assembled by run()
includes the three unconditional plugins — clipboard, opener and
filesystem — whatever the runtime behaviour. -/
theorem C1_unconditional_plugins (os : TargetOS) (runtime : RuntimeBehaviour) :
    tauri_plugin_clipboard.init ∈ registeredPlugins (run os runtime).1 ∧
    tauri_plugin_opener.init ∈ registeredPlugins (run os runtime).1 ∧
    tauri_plugin_fs.init ∈ registeredPlugins (run os runtime).1 := by
  simp only [run_registered, bootstrap_plugins_eq]
  cases os <;> decide

/-- Claim C2: the global-shortcut plugin is in the assembled plugin set
exactly when the target platform is neither android nor ios. -/
theorem C2_global_shortcut_iff_desktop (os : TargetOS) (runtime : RuntimeBehaviour) :
    (∃ cfg, Plugin.globalShortcut cfg ∈ registeredPlugins (run os runtime).1) ↔
      (os ≠ TargetOS.android ∧ os ≠ TargetOS.ios) := by
  simp only [run_registered, bootstrap_plugins_eq]
  cases os <;> simp

/-- Claim C3: whenever the runtime run call ends in an error, run() ends in
a panic carrying the descriptive fatal message; no other outcome is
possible on the error path. -/
theorem C3_error_panics (os : TargetOS) (runtime : RuntimeBehaviour) (e : String)
    (h : runtime (bootstrapBuilder os).plugins tauri.generate_context =
        RuntimeResult.err e) :
    (run os runtime).2 = Outcome.panic "error while running tauri application" := by
  simp only [run, tauri.Builder.run, h, RuntimeResult.expect]

/-- Witness for C3 at a concrete target and runtime behaviour. -/
theorem C3_error_panics_witness :
    (fun _ _ => RuntimeResult.err "boom" : RuntimeBehaviour)
        (bootstrapBuilder TargetOS.linux).plugins tauri.generate_context =
      RuntimeResult.err "boom" ∧
    (run TargetOS.linux (fun _ _ => RuntimeResult.err "boom")).2 =
      Outcome.panic "error while running tauri application" :=
  ⟨rfl, C3_error_panics TargetOS.linux (fun _ _ => RuntimeResult.err "boom") "boom" rfl⟩

/-- Claim C4: run() registers exactly the four plugins clipboard, opener,
filesystem and default-configured global shortcut on a desktop target, and
exactly the three unconditional ones on android and ios, in that order, and
no other plugin. -/
theorem C4_exact_plugin_set (os : TargetOS) (runtime : RuntimeBehaviour) :
    registeredPlugins (run os runtime).1 =
      if os = TargetOS.android ∨ os = TargetOS.ios then
        [Plugin.clipboard, Plugin.opener, Plugin.fs]
      else
        [Plugin.clipboard, Plugin.opener, Plugin.fs,
          Plugin.globalShortcut tauri_plugin_global_shortcut.Builder.new] := by
  rw [run_registered, bootstrap_plugins_eq]

/-- Claim C5: the event trace of run() is exactly the plugin registrations,
clipboard then opener then filesystem then (on desktop) global shortcut,
followed by the single run invocation, and nothing else. -/
theorem C5_sequential_order (os : TargetOS) (runtime : RuntimeBehaviour) :
    (run os runtime).1 =
      ([Event.registered Plugin.clipboard, Event.registered Plugin.opener,
          Event.registered Plugin.fs] ++
        (if os = TargetOS.android ∨ os = TargetOS.ios then []
         else [Event.registered
            (Plugin.globalShortcut tauri_plugin_global_shortcut.Builder.new)])) ++
      [Event.runInvoked] := by
  cases os <;> rfl

/-- Claim C6: on success of the runtime run call, run() returns unit to its
caller — the outcome is the value-free normal exit, reached only after the
run invocation ends. -/
theorem C6_unit_on_success (os : TargetOS) (runtime : RuntimeBehaviour)
    (h : runtime (bootstrapBuilder os).plugins tauri.generate_context =
        RuntimeResult.ok) :
    (run os runtime).2 = Outcome.normalExit := by
  simp only [run, tauri.Builder.run, h, RuntimeResult.expect]

/-- Witness for C6 at a concrete target and runtime behaviour. -/
theorem C6_unit_on_success_witness :
    (fun _ _ => RuntimeResult.ok : RuntimeBehaviour)
        (bootstrapBuilder TargetOS.macos).plugins tauri.generate_context =
      RuntimeResult.ok ∧
    (run TargetOS.macos (fun _ _ => RuntimeResult.ok)).2 = Outcome.normalExit :=
  ⟨rfl, C6_unit_on_success TargetOS.macos (fun _ _ => RuntimeResult.ok) rfl⟩

/-- Claim C8: any global-shortcut plugin registered by run() carries the
default builder configuration — no pre-registered shortcuts and no
installed handler. -/
theorem C8_default_shortcut_config (os : TargetOS) (runtime : RuntimeBehaviour)
    (cfg : tauri_plugin_global_shortcut.Builder)
    (h : Plugin.globalShortcut cfg ∈ registeredPlugins (run os runtime).1) :
    cfg = tauri_plugin_global_shortcut.Builder.new ∧
      cfg.shortcuts = [] ∧ cfg.hasHandler = false := by
  rw [run_registered, bootstrap_plugins_eq] at h
  cases os <;> simp_all [tauri_plugin_global_shortcut.Builder.new]

/-- Witness for C8 at a concrete target and runtime behaviour. -/
theorem C8_default_shortcut_config_witness :
    Plugin.globalShortcut tauri_plugin_global_shortcut.Builder.new ∈
        registeredPlugins (run TargetOS.windows (fun _ _ => RuntimeResult.ok)).1 ∧
    (tauri_plugin_global_shortcut.Builder.new =
          tauri_plugin_global_shortcut.Builder.new ∧
      tauri_plugin_global_shortcut.Builder.new.shortcuts = [] ∧
      tauri_plugin_global_shortcut.Builder.new.hasHandler = false) :=
  ⟨by decide,
    C8_default_shortcut_config TargetOS.windows (fun _ _ => RuntimeResult.ok)
      tauri_plugin_global_shortcut.Builder.new (by decide)⟩

/-- Claim C9: for a fixed target platform, the bootstrap trace — and hence
the registered plugin list and its order — is identical across any two
runtime behaviours: it depends on no runtime input or environment. -/
theorem C9_deterministic_plugins (os : TargetOS) (r1 r2 : RuntimeBehaviour) :
    (run os r1).1 = (run os r2).1 ∧
    registeredPlugins (run os r1).1 = registeredPlugins (run os r2).1 :=
  ⟨by rw [run_trace_eq, run_trace_eq], by rw [run_registered, run_registered]⟩

/-- Claim C10: on a mobile target the mobile entry point exists and is
bound to run itself, and on a non-mobile target no mobile entry point is
declared — one shared bootstrap path. -/
theorem C10_shared_mobile_entry (os : TargetOS) :
    (mobile os = true → mobile_entry_point os = some (run os)) ∧
    (mobile os = false → mobile_entry_point os = none) := by
  cases os <;> simp [mobile_entry_point, mobile]

/-- Witness for C10 at a concrete mobile target. -/
theorem C10_shared_mobile_entry_witness :
    mobile TargetOS.android = true ∧
    mobile_entry_point TargetOS.android = some (run TargetOS.android) :=
  ⟨rfl, (C10_shared_mobile_entry TargetOS.android).1 rfl⟩
